import Mathlib

/-!
Shallow embedding of `src/CSC360-Project1-Shell-Provide.cpp`, an interactive
shell ("guish") with a bounded command history, an `r [N]` history-recall
builtin, `exit`/`hist`/`cd` builtins, and fork/exec launching of external
commands.

Modelling conventions:
* The global `vector<string> history` becomes an explicit `List String`
  threaded through the functions (oldest entry first, as in the vector).
* The global `volatile sig_atomic_t sigint_count` becomes an explicit `Nat`
  parameter (it is only read by the code modelled here).
* `cout`/`cerr` become the `out`/`err` fields of `ExecResult`: the list of
  lines printed to each stream, in order.  `exit(status)` becomes
  `terminated = some status`; a run that returns to the loop has
  `terminated = none`.
* `fork`/`execvp`/`waitpid` are OS effects; their outcome for the single
  child a dispatch may create is supplied as a `LaunchOutcome` oracle
  argument, and `chdir`'s success as a `Bool` oracle.  Everything the
  source computes from those outcomes (messages, statuses, history) is
  modelled faithfully.
* Lines are ASCII in all scenarios of interest, so C++ byte indexing
  (`line[0]`, `substr(2)`, `length()`) coincides with `String.data`
  character indexing.
-/

/-- The whitespace set used by the source: `" \t\n\v\f\r"` in the blank-line
check of `main`, and the (default-locale) `isspace` set used both by
`stringstream >>` extraction in `parse_args` and by `stoi`. -/
def isShellWs (c : Char) : Bool :=
  c = ' ' || c = '\t' || c = '\n' || c = '\x0b' || c = '\x0c' || c = '\x0d'

/-- `line.empty() || line.find_first_not_of(" \t\n\v\f\r") == string::npos`
(main, line 50): the line has no non-whitespace character. -/
def isBlankLine (line : String) : Bool :=
  line.data.all isShellWs

/-- `parse_args` (source lines 85–92): `stringstream >> token` splits the
line on runs of whitespace, producing the nonempty tokens in order. -/
def parse_args (line : String) : List String :=
  ((line.data.splitOnP isShellWs).map (fun cs => String.mk cs)).filter
    (fun s => s ≠ "")

/-- `const int HISTORY_SIZE = 10;` (source line 17). -/
def HISTORY_SIZE : Nat := 10

/-- `add_to_history` (source lines 180–185): if the store already holds
`HISTORY_SIZE` entries, erase the oldest (front) one, then push the new
command at the back. -/
def add_to_history (hist : List String) (cmd : String) : List String :=
  (if hist.length = HISTORY_SIZE then hist.drop 1 else hist) ++ [cmd]

/-- `print_history` (source lines 188–193): each retained entry on its own
line, labelled with its 1-based position, oldest first. -/
def print_history (hist : List String) : List String :=
  hist.enum.map (fun p => "  " ++ toString (p.1 + 1) ++ ": " ++ p.2)

/-- Result of C++ `stoi`: a parsed `int`, or the `std::invalid_argument` /
`std::out_of_range` exceptions. -/
inductive StoiResult where
  | ok (n : Int)
  | invalid
  | overflow
deriving DecidableEq, Repr

/-- `INT_MAX` for the 32-bit `int` of the target platform. -/
def INT_MAX : Int := 2 ^ 31 - 1

/-- `INT_MIN` for the 32-bit `int` of the target platform. -/
def INT_MIN : Int := -(2 ^ 31)

/-- Digit phase of `stoi`: after whitespace and an optional sign, consume
the leading run of decimal digits; no digits is `std::invalid_argument`,
a value outside `int`'s range is `std::out_of_range`. -/
def stoiDigits (cs : List Char) (neg : Bool) : StoiResult :=
  let ds := cs.takeWhile Char.isDigit
  if ds.isEmpty then .invalid
  else
    let m : Int := ds.foldl (fun a c => a * 10 + ((c.toNat - '0'.toNat : Nat) : Int)) 0
    let v : Int := if neg then -m else m
    if v < INT_MIN || INT_MAX < v then .overflow else .ok v

/-- C++ `stoi(arg)` as used at source line 206: skip leading whitespace,
accept one optional sign, then parse the longest run of decimal digits. -/
def stoi (s : String) : StoiResult :=
  match s.data.dropWhile isShellWs with
  | '-' :: cs => stoiDigits cs true
  | '+' :: cs => stoiDigits cs false
  | cs => stoiDigits cs false

/-- `get_command_from_history` (source lines 196–219).  Returns the
resolved command (the empty string meaning "nothing found") together with
the lines the function itself prints to `cerr`. -/
def get_command_from_history (hist : List String) (arg : String) :
    String × List String :=
  if hist = [] then ("", [])
  else if arg = "" then (hist.getLastD "", [])
  else
    match stoi arg with
    | .ok n =>
        if 1 ≤ n ∧ n ≤ (hist.length : Int) then (hist.getD (n.toNat - 1) "", [])
        else ("", [])
    | .invalid => ("", ["Invalid number for 'r': " ++ arg])
    | .overflow => ("", ["Number for 'r' is out of range: " ++ arg])

/-- How the child terminated, as seen by `waitpid`: a normal `exit` with a
status code (`WIFEXITED`), or death by a signal. -/
inductive TermStatus where
  | exited (code : Nat)
  | signaled (sig : Nat)
deriving DecidableEq, Repr

/-- Outcome of the fork/exec of one external command, supplied as an
oracle: `fork` failed; `execvp` failed in the child (with the `errno`
value and its `strerror` text); or the program ran and terminated. -/
inductive LaunchOutcome where
  | forkFail
  | execFail (errno : Nat) (emsg : String)
  | ran (ts : TermStatus)
deriving DecidableEq, Repr

/-- `EXIT_FAILURE`, the status the child passes to `exit` at source line
163 when `execvp` returns. -/
def EXIT_FAILURE : Nat := 1

/-- The exit status of a child whose `execvp` failed (source line 163). -/
def child_exec_fail_status : Nat := EXIT_FAILURE

/-- The child's diagnostic when `execvp` returns (source line 162). -/
def execFailDiag (name : String) (errno : Nat) (emsg : String) : String :=
  "The program '" ++ name ++ "' seems missing. Error code is: " ++
    toString errno ++ " (" ++ emsg ++ ")"

/-- The parent's exit-code report line (source line 173). -/
def exitCodeReport (code : Nat) : String :=
  "[ Program returned exit code " ++ toString code ++ " ]"

/-- The parent's post-`waitpid` output (source lines 172–174): report the
exit code exactly when the child `WIFEXITED` with a non-zero
`WEXITSTATUS`; print nothing otherwise. -/
def parentReport (ts : TermStatus) : List String :=
  match ts with
  | .exited code => if code ≠ 0 then [exitCodeReport code] else []
  | .signaled _ => []

/-- The external-command phase of `execute_command` (source lines
143–175), given the program name and the launch oracle.  Returns the
`(stdout, stderr)` lines produced.  When `execvp` fails the child prints
its diagnostic and exits with `child_exec_fail_status`, so the parent's
`waitpid` sees a normal termination with that status. -/
def runExternal (name : String) (lo : LaunchOutcome) :
    List String × List String :=
  match lo with
  | .forkFail => ([], ["fork failed"])
  | .execFail errno emsg =>
      (parentReport (.exited child_exec_fail_status),
       [execFailDiag name errno emsg])
  | .ran ts => (parentReport ts, [])

/-- The shutdown message of the `exit` builtin (source line 109). -/
def exitMsg (sigintCount : Nat) : String :=
  "[Shell exiting... SIGINT (Ctrl+C) was caught " ++ toString sigintCount ++
    " times]"

/-- Everything one call to `execute_command` (or one loop iteration of
`main`) makes observable: the history afterwards, the lines printed on
each stream, and whether the process called `exit` (with which status). -/
structure ExecResult where
  history : List String
  out : List String
  err : List String
  terminated : Option Nat
deriving DecidableEq, Repr

/-- `execute_command` (source lines 95–176).  `lo` is the launch oracle
for the (at most one) forked child, `cdOk` the oracle for `chdir`'s
success, `sigint` the current value of `sigint_count`. -/
def execute_command (lo : LaunchOutcome) (cdOk : Bool) (sigint : Nat)
    (hist : List String) (cmd : String) : ExecResult :=
  match parse_args cmd with
  | [] => ⟨hist, [], [], none⟩
  | arg0 :: rest =>
    if arg0 = "exit" then
      ⟨hist, [exitMsg sigint], [], some 0⟩
    else
      let hist1 := add_to_history hist cmd
      if arg0 = "hist" then
        ⟨hist1, print_history hist1, [], none⟩
      else if arg0 = "cd" then
        if rest.length > 0 then
          if cdOk then ⟨hist1, [], [], none⟩
          else ⟨hist1, [], ["cd failed"], none⟩
        else ⟨hist1, [], [], none⟩
      else
        let hist2 := if arg0 ≠ "hist" then add_to_history hist1 cmd else hist1
        let oe := runExternal arg0 lo
        ⟨hist2, oe.1, oe.2, none⟩

/-- The routing test of `main` (source line 55):
`line[0] == 'r' && (line.length() == 1 || line[1] == ' ')`.
`line[0]`/`line[1]` are the characters at positions 0/1 and `length()` the
character count (ASCII lines). -/
def isRecallLine (line : String) : Bool :=
  line.data.head? = some 'r' &&
    (line.data.length = 1 || line.data.get? 1 = some ' ')

/-- The recall-argument extraction of `main` (source line 56):
`(line.length() > 2) ? line.substr(2) : ""`. -/
def recall_arg (line : String) : String :=
  if line.length > 2 then String.mk (line.data.drop 2) else ""

/-- The recall branch of `main` (source lines 56–64): resolve the
argument against the history; on success echo `Executing: …` and dispatch
the resolved text through `execute_command`; otherwise report
`History command not found.` on `cerr`. -/
def handle_recall (lo : LaunchOutcome) (cdOk : Bool) (sigint : Nat)
    (hist : List String) (line : String) : ExecResult :=
  let arg := recall_arg line
  let res := get_command_from_history hist arg
  if res.1 ≠ "" then
    let r := execute_command lo cdOk sigint hist res.1
    ⟨r.history, ("Executing: " ++ res.1) :: r.out, res.2 ++ r.err, r.terminated⟩
  else
    ⟨hist, [], res.2 ++ ["History command not found."], none⟩

/-- One iteration of the shell loop of `main` (source lines 49–68) on a
line read from stdin: skip blank lines, route `r`-lines to the recall
handler, dispatch everything else directly. -/
def main_step (lo : LaunchOutcome) (cdOk : Bool) (sigint : Nat)
    (hist : List String) (line : String) : ExecResult :=
  if isBlankLine line then ⟨hist, [], [], none⟩
  else if isRecallLine line then handle_recall lo cdOk sigint hist line
  else execute_command lo cdOk sigint hist line

/-- The history evolved from the empty initial store by a sequence of
`add_to_history` calls, oldest command first. -/
def hist_after (cmds : List String) : List String :=
  cmds.foldl add_to_history []

/-! ## Theorems -/

/-- Helper: the fold of `add_to_history` over a command sequence keeps
exactly the last `HISTORY_SIZE` commands. -/
theorem hist_after_eq_drop (cmds : List String) :
    hist_after cmds = cmds.drop (cmds.length - HISTORY_SIZE) := by
  induction cmds using List.reverseRecOn with
  | nil => rfl
  | append_singleton cs c ih =>
    unfold hist_after at ih ⊢
    rw [List.foldl_append, List.foldl_cons, List.foldl_nil, ih]
    unfold add_to_history HISTORY_SIZE
    by_cases h : cs.length < 10
    · rw [show cs.length - 10 = 0 from by omega, List.drop_zero,
        if_neg (by omega : ¬ cs.length = 10),
        show (cs ++ [c]).length - 10 = 0 from by simp; omega, List.drop_zero]
    · rw [if_pos (by rw [List.length_drop]; omega), List.drop_drop,
        show (cs ++ [c]).length - 10 = cs.length - 10 + 1 from by simp; omega,
        List.drop_append_of_le_length (by omega)]

/-- C3: the History Store never exceeds 10 entries, and any sequence of
adds starting from the empty store retains exactly the most recently
added 10 commands, in insertion order (FIFO eviction of the oldest). -/
theorem history_capacity_fifo (cmds : List String) :
    (hist_after cmds).length ≤ HISTORY_SIZE ∧
    hist_after cmds = cmds.drop (cmds.length - HISTORY_SIZE) := by
  refine ⟨?_, hist_after_eq_drop cmds⟩
  rw [hist_after_eq_drop cmds, List.length_drop]
  unfold HISTORY_SIZE
  omega

/-- C2 (code bug): dispatching the external command `ls` on an empty
history records it twice, not once — `execute_command` adds the line
unconditionally before the builtin checks and then again on the external
path. -/
theorem external_command_double_add :
    (execute_command (.ran (.exited 0)) true 0 [] "ls").history =
      ["ls", "ls"] ∧
    (execute_command (.ran (.exited 0)) true 0 [] "ls").history ≠ ["ls"] := by
  decide

/-- C8: dispatching any command whose first token is `exit` prints the
shutdown message with the current SIGINT count, terminates the process
with status 0, and performs no history update and no other output. -/
theorem exit_builtin_terminates (lo : LaunchOutcome) (cdOk : Bool)
    (sigint : Nat) (hist : List String) (cmd : String) (rest : List String)
    (hp : parse_args cmd = "exit" :: rest) :
    execute_command lo cdOk sigint hist cmd =
      ⟨hist, [exitMsg sigint], [], some 0⟩ := by
  unfold execute_command
  rw [hp]
  simp

/-- C8 witness: `  exit now` (first token `exit`, SIGINT count 5) at a
concrete state. -/
theorem exit_builtin_terminates_witness :
    execute_command .forkFail true 5 ["x"] "  exit now" =
      ⟨["x"], [exitMsg 5], [], some 0⟩ :=
  exit_builtin_terminates .forkFail true 5 ["x"] "  exit now" ["now"]
    (by decide)

/-- C9 counterexample: a child killed by signal 9 is handled exactly like
a child that exited with status 0 — the parent's observable behavior is
identical, so abnormal termination is silently treated as success. -/
theorem signaled_silent_counterexample :
    execute_command (.ran (.signaled 9)) true 0 [] "sleep" =
      execute_command (.ran (.exited 0)) true 0 [] "sleep" := by
  decide

/-- C9 (amended): for every dispatched command, a child terminating
abnormally (killed by a signal) produces exactly the same observable
result as a child exiting with status 0: the parent prints nothing in
both cases. -/
theorem signaled_treated_as_success (cdOk : Bool) (sigint : Nat)
    (hist : List String) (cmd : String) (sig : Nat) :
    execute_command (.ran (.signaled sig)) cdOk sigint hist cmd =
      execute_command (.ran (.exited 0)) cdOk sigint hist cmd := by
  unfold execute_command
  cases parse_args cmd with
  | nil => rfl
  | cons a0 rest => simp [runExternal, parentReport]

/-- Helper: `stoi` of the empty string raises `invalid_argument`. -/
theorem stoi_empty : stoi "" = .invalid := by decide

/-- Helper: resolver outcome on an unparsable argument (nonempty store,
nonempty argument). -/
theorem resolver_invalid (hist : List String) (arg : String)
    (hne : hist ≠ []) (hane : arg ≠ "") (h : stoi arg = .invalid) :
    get_command_from_history hist arg =
      ("", ["Invalid number for 'r': " ++ arg]) := by
  unfold get_command_from_history
  rw [if_neg hne, if_neg hane, h]

/-- Helper: resolver outcome when `stoi` overflows `int` (nonempty store,
nonempty argument). -/
theorem resolver_overflow (hist : List String) (arg : String)
    (hne : hist ≠ []) (hane : arg ≠ "") (h : stoi arg = .overflow) :
    get_command_from_history hist arg =
      ("", ["Number for 'r' is out of range: " ++ arg]) := by
  unfold get_command_from_history
  rw [if_neg hne, if_neg hane, h]

/-- Helper: resolver outcome on an integer outside `1..size` (nonempty
store, nonempty argument): silent "not found". -/
theorem resolver_not_in_range (hist : List String) (arg : String)
    (hne : hist ≠ []) (hane : arg ≠ "") (n : Int) (h : stoi arg = .ok n)
    (hr : ¬(1 ≤ n ∧ n ≤ (hist.length : Int))) :
    get_command_from_history hist arg = ("", []) := by
  unfold get_command_from_history
  rw [if_neg hne, if_neg hane, h]
  simp only [if_neg hr]

/-- Helper: resolver outcome on an empty store: silent "not found". -/
theorem resolver_empty_store (arg : String) :
    get_command_from_history [] arg = ("", []) := by
  unfold get_command_from_history
  simp

/-- C4: the History Recall Resolver with an empty argument returns the
most recently added entry (and the empty "not found" result on an empty
store, since `[].getLastD "" = ""`), and with an argument `stoi` parses
to `n` with `1 ≤ n ≤ size` it returns the `n`-th entry, 1-based from the
oldest retained entry. -/
theorem recall_resolver_correct (hist : List String) (arg : String) :
    (arg = "" → get_command_from_history hist arg = (hist.getLastD "", [])) ∧
    (∀ n : Int, stoi arg = .ok n → 1 ≤ n → n ≤ (hist.length : Int) →
      (get_command_from_history hist arg).1 = hist.getD (n.toNat - 1) "") := by
  constructor
  · intro ha
    subst ha
    unfold get_command_from_history
    by_cases h : hist = []
    · subst h; simp
    · simp [h]
  · intro n hok h1 h2
    have hne : hist ≠ [] := by
      intro h
      subst h
      simp at h2
      omega
    have hane : arg ≠ "" := by
      intro h
      subst h
      rw [stoi_empty] at hok
      exact StoiResult.noConfusion hok
    unfold get_command_from_history
    rw [if_neg hne, if_neg hane, hok]
    simp only [if_pos (And.intro h1 h2)]

/-- C4 witness: with store `A, B, C`, the empty argument resolves to `C`
and argument `2` resolves to `B`. -/
theorem recall_resolver_correct_witness :
    get_command_from_history ["A", "B", "C"] "" = ("C", []) ∧
    (get_command_from_history ["A", "B", "C"] "2").1 = "B" := by
  constructor
  · rw [(recall_resolver_correct ["A", "B", "C"] "").1 rfl]
    decide
  · rw [(recall_resolver_correct ["A", "B", "C"] "2").2 2 (by decide)
      (by decide) (by decide)]
    decide

/-- C5 counterexample: with an empty store, the unparsable argument in
`r abc` and the out-of-range argument in `r 0` produce identical
behavior — the single diagnostic `History command not found.` — so
"invalid format" is not distinguished from "out of range" there. -/
theorem recall_error_collapse_counterexample :
    main_step (.ran (.exited 0)) true 0 [] "r abc" =
      main_step (.ran (.exited 0)) true 0 [] "r 0" ∧
    (main_step (.ran (.exited 0)) true 0 [] "r abc").err =
      ["History command not found."] := by
  decide

/-- C5 (amended): every recall whose nonempty argument fails to parse or
parses outside `1..size` produces a user-visible error, executes no
command, leaves the history unchanged, and the shell continues; invalid
format is distinguished from an out-of-range index only when the store is
nonempty (the parse failure then adds `Invalid number for 'r': <arg>`,
while an in-`int`-range index outside `1..size` yields only the generic
`History command not found.`). -/
theorem recall_failure_reporting (lo : LaunchOutcome) (cdOk : Bool)
    (sigint : Nat) (hist : List String) (line arg : String)
    (hb : isBlankLine line = false) (hr : isRecallLine line = true)
    (ha : recall_arg line = arg) (hane : arg ≠ "")
    (hfail : stoi arg = .invalid ∨ stoi arg = .overflow ∨
      ∃ n : Int, stoi arg = .ok n ∧ ¬(1 ≤ n ∧ n ≤ (hist.length : Int))) :
    ((main_step lo cdOk sigint hist line).history = hist ∧
     (main_step lo cdOk sigint hist line).out = [] ∧
     (main_step lo cdOk sigint hist line).terminated = none ∧
     (main_step lo cdOk sigint hist line).err ≠ []) ∧
    (hist ≠ [] → stoi arg = .invalid →
      (main_step lo cdOk sigint hist line).err =
        ["Invalid number for 'r': " ++ arg, "History command not found."]) ∧
    (hist ≠ [] → ∀ n : Int, stoi arg = .ok n →
      ¬(1 ≤ n ∧ n ≤ (hist.length : Int)) →
      (main_step lo cdOk sigint hist line).err =
        ["History command not found."]) := by
  have hres1 : (get_command_from_history hist arg).1 = "" := by
    by_cases hne : hist = []
    · subst hne
      rw [resolver_empty_store]
    · rcases hfail with h | h | ⟨n, hok, hr2⟩
      · rw [resolver_invalid hist arg hne hane h]
      · rw [resolver_overflow hist arg hne hane h]
      · rw [resolver_not_in_range hist arg hne hane n hok hr2]
  have hms : main_step lo cdOk sigint hist line =
      ⟨hist, [], (get_command_from_history hist arg).2 ++
        ["History command not found."], none⟩ := by
    unfold main_step handle_recall
    rw [ha]
    simp [hb, hr, hres1]
  refine ⟨⟨?_, ?_, ?_, ?_⟩, ?_, ?_⟩
  · rw [hms]
  · rw [hms]
  · rw [hms]
  · rw [hms]
    simp
  · intro hne hinv
    rw [hms, resolver_invalid hist arg hne hane hinv]
    simp
  · intro hne n hok hr2
    rw [hms, resolver_not_in_range hist arg hne hane n hok hr2]
    simp

/-- C5 witness: `r 0` with store `A` — history unchanged, nothing
executed, the generic not-found diagnostic reported. -/
theorem recall_failure_reporting_witness :
    (main_step .forkFail true 0 ["A"] "r 0").history = ["A"] ∧
    (main_step .forkFail true 0 ["A"] "r 0").out = [] ∧
    (main_step .forkFail true 0 ["A"] "r 0").err =
      ["History command not found."] := by
  have h := recall_failure_reporting .forkFail true 0 ["A"] "r 0" "0"
    (by decide) (by decide) (by decide) (by decide)
    (Or.inr (Or.inr ⟨0, by decide, by decide⟩))
  exact ⟨h.1.1, h.1.2.1, h.2.2 (by decide) 0 (by decide) (by decide)⟩

/-- C1 counterexample: with store `ls`, the pure recall `r` resolves and
executes `ls`, after which the history is `ls, ls, ls` — the recall's
dispatch re-added the resolved text (twice), so recall does not bypass
the add step and the history does not stay unchanged. -/
theorem recall_readds_counterexample :
    (main_step (.ran (.exited 0)) true 0 ["ls"] "r").history =
      ["ls", "ls", "ls"] ∧
    (main_step (.ran (.exited 0)) true 0 ["ls"] "r").history ≠ ["ls"] := by
  decide

/-- C1 (amended): a successfully resolved recall feeds the resolved line
through the full dispatch path with no suppression of history recording:
the history after the recall is exactly the history produced by
dispatching the resolved text as a fresh non-recall invocation (so the
dispatch path's add step runs for the resolved text; only the literal
`r`/`r N` line itself is never recorded). -/
theorem recall_redispatch_full_path (lo : LaunchOutcome) (cdOk : Bool)
    (sigint : Nat) (hist : List String) (line : String)
    (hb : isBlankLine line = false) (hr : isRecallLine line = true)
    (hc : (get_command_from_history hist (recall_arg line)).1 ≠ "") :
    (main_step lo cdOk sigint hist line).history =
      (execute_command lo cdOk sigint hist
        (get_command_from_history hist (recall_arg line)).1).history := by
  unfold main_step handle_recall
  simp [hb, hr, hc]

/-- C1 witness: recalling `r 1` with store `echo hi` at a concrete
state. -/
theorem recall_redispatch_full_path_witness :
    (main_step (.ran (.exited 3)) true 0 ["echo hi"] "r 1").history =
      (execute_command (.ran (.exited 3)) true 0 ["echo hi"]
        (get_command_from_history ["echo hi"] (recall_arg "r 1")).1).history :=
  recall_redispatch_full_path (.ran (.exited 3)) true 0 ["echo hi"] "r 1"
    (by decide) (by decide) (by decide)

/-- C6 counterexample: a missing executable makes the child exit with
status `EXIT_FAILURE` (1), not with the distinguished status 127; the
parent accordingly reports exit code 1. -/
theorem exec_fail_status_counterexample :
    child_exec_fail_status ≠ 127 ∧
    (execute_command (.execFail 2 "No such file or directory") true 0 []
      "doesnotexist123").out = ["[ Program returned exit code 1 ]"] := by
  decide

/-- C6 (amended): when `execvp` fails for an external command, the child
reports a diagnostic on standard error that contains the program name and
the OS error code/message, and terminates with exit status
`EXIT_FAILURE` (1), which the parent then reports. -/
theorem exec_fail_diag_and_status (errno : Nat) (emsg : String)
    (cdOk : Bool) (sigint : Nat) (hist : List String) (cmd a0 : String)
    (rest : List String) (hp : parse_args cmd = a0 :: rest)
    (h1 : a0 ≠ "exit") (h2 : a0 ≠ "hist") (h3 : a0 ≠ "cd") :
    (execute_command (.execFail errno emsg) cdOk sigint hist cmd).err =
      [execFailDiag a0 errno emsg] ∧
    (∃ pre post, execFailDiag a0 errno emsg = pre ++ a0 ++ post) ∧
    (∃ pre post,
      execFailDiag a0 errno emsg = pre ++ toString errno ++ post) ∧
    child_exec_fail_status = EXIT_FAILURE ∧ EXIT_FAILURE = 1 ∧
    (execute_command (.execFail errno emsg) cdOk sigint hist cmd).out =
      [exitCodeReport child_exec_fail_status] := by
  refine ⟨?_, ?_, ?_, rfl, rfl, ?_⟩
  · unfold execute_command
    rw [hp]
    simp [h1, h2, h3, runExternal]
  · exact ⟨"The program '",
      "' seems missing. Error code is: " ++ toString errno ++ " (" ++
        emsg ++ ")",
      by unfold execFailDiag; simp [String.append_assoc]⟩
  · exact ⟨"The program '" ++ a0 ++ "' seems missing. Error code is: ",
      " (" ++ emsg ++ ")",
      by unfold execFailDiag; simp [String.append_assoc]⟩
  · unfold execute_command
    rw [hp]
    simp [h1, h2, h3, runExternal, parentReport, child_exec_fail_status,
      EXIT_FAILURE]

/-- C6 witness: `doesnotexist123` with `errno` 2 (`No such file or
directory`) at a concrete state. -/
theorem exec_fail_diag_and_status_witness :
    (execute_command (.execFail 2 "No such file or directory") true 0 []
      "doesnotexist123").err =
      [execFailDiag "doesnotexist123" 2 "No such file or directory"] ∧
    child_exec_fail_status = EXIT_FAILURE :=
  have h := exec_fail_diag_and_status 2 "No such file or directory" true 0
    [] "doesnotexist123" "doesnotexist123" [] (by decide) (by decide)
    (by decide) (by decide)
  ⟨h.1, h.2.2.2.1⟩

/-- C7 counterexample: a child of `ls` exiting with status 2 is reported
as `[ Program returned exit code 2 ]` — the line does not contain the
program name, so it is not the claimed
`[ Program 'ls' returned exit code 2 ]`. -/
theorem exit_report_no_name_counterexample :
    (execute_command (.ran (.exited 2)) true 0 [] "ls").out =
      ["[ Program returned exit code 2 ]"] ∧
    (execute_command (.ran (.exited 2)) true 0 [] "ls").out ≠
      ["[ Program 'ls' returned exit code 2 ]"] := by
  decide

/-- C7 (amended): for an external command whose child terminates
normally, the parent prints the one-line report
`[ Program returned exit code <code> ]` — numeric code but no program
name — exactly when the exit status is non-zero, and prints nothing on a
zero exit status. -/
theorem exit_code_reporting (c : Nat) (cdOk : Bool) (sigint : Nat)
    (hist : List String) (cmd a0 : String) (rest : List String)
    (hp : parse_args cmd = a0 :: rest)
    (h1 : a0 ≠ "exit") (h2 : a0 ≠ "hist") (h3 : a0 ≠ "cd") :
    (c ≠ 0 →
      (execute_command (.ran (.exited c)) cdOk sigint hist cmd).out =
        [exitCodeReport c]) ∧
    (c = 0 →
      (execute_command (.ran (.exited c)) cdOk sigint hist cmd).out = []) ∧
    exitCodeReport c =
      "[ Program returned exit code " ++ toString c ++ " ]" := by
  refine ⟨?_, ?_, rfl⟩
  · intro hc
    unfold execute_command
    rw [hp]
    simp [h1, h2, h3, runExternal, parentReport, hc]
  · intro hc
    subst hc
    unfold execute_command
    rw [hp]
    simp [h1, h2, h3, runExternal, parentReport]

/-- C7 witness: `ls` exiting with status 2, and with status 0, at a
concrete state. -/
theorem exit_code_reporting_witness :
    (execute_command (.ran (.exited 2)) true 0 [] "ls").out =
      [exitCodeReport 2] ∧
    (execute_command (.ran (.exited 0)) true 0 [] "ls").out = [] := by
  have h2 := exit_code_reporting 2 true 0 [] "ls" "ls" [] (by decide)
    (by decide) (by decide) (by decide)
  have h0 := exit_code_reporting 0 true 0 [] "ls" "ls" [] (by decide)
    (by decide) (by decide) (by decide)
  exact ⟨h2.1 (by decide), h0.2.1 rfl⟩

/-- C10: a nonblank raw line is routed to the recall handler exactly when
its first character is `r` and either the line has length 1 or its second
character is a space; otherwise it is dispatched directly.  In
particular, ` r 1` (leading space) is not a recall: it is dispatched as
an ordinary command whose name token is `r`, recorded in history like any
external command, even though the tokenizer drops the leading
whitespace. -/
theorem recall_routing_first_char (lo : LaunchOutcome) (cdOk : Bool)
    (sigint : Nat) (hist : List String) (line : String)
    (hb : isBlankLine line = false) :
    (isRecallLine line = true ↔
      ∃ cs, line.data = 'r' :: cs ∧ (cs = [] ∨ ∃ ds, cs = ' ' :: ds)) ∧
    (isRecallLine line = true →
      main_step lo cdOk sigint hist line =
        handle_recall lo cdOk sigint hist line) ∧
    (isRecallLine line = false →
      main_step lo cdOk sigint hist line =
        execute_command lo cdOk sigint hist line) ∧
    parse_args " r 1" = ["r", "1"] ∧
    main_step lo cdOk sigint hist " r 1" =
      execute_command lo cdOk sigint hist " r 1" ∧
    (execute_command lo cdOk sigint hist " r 1").history =
      add_to_history (add_to_history hist " r 1") " r 1" := by
  refine ⟨?_, ?_, ?_, by decide, ?_, ?_⟩
  · unfold isRecallLine
    cases hd : line.data with
    | nil => simp
    | cons c cs =>
      cases cs with
      | nil =>
        simp
        constructor
        · intro hc
          exact ⟨[], ⟨hc, rfl⟩, Or.inl rfl⟩
        · rintro ⟨cs, ⟨hc, -⟩, -⟩
          exact hc
      | cons c1 cs1 =>
        simp
        constructor
        · rintro ⟨hc, hc1⟩
          exact ⟨c1 :: cs1, ⟨hc, rfl⟩, Or.inr ⟨cs1, by rw [hc1]⟩⟩
        · rintro ⟨cs, ⟨hc, hcs⟩, hor⟩
          subst hcs
          refine ⟨hc, ?_⟩
          rcases hor with h0 | ⟨ds, hds⟩
          · exact absurd h0 (List.cons_ne_nil _ _)
          · injection hds with h1 h2
  · intro h
    unfold main_step
    simp [hb, h]
  · intro h
    unfold main_step
    simp [hb, h]
  · have e1 : isBlankLine " r 1" = false := by decide
    have e2 : isRecallLine " r 1" = false := by decide
    unfold main_step
    simp [e1, e2]
  · have hp : parse_args " r 1" = ["r", "1"] := by decide
    unfold execute_command
    rw [hp]
    simp

/-- C10 witness: `r 1` routes to the recall handler; ` r 1` (leading
space) is dispatched directly, at a concrete state. -/
theorem recall_routing_first_char_witness :
    main_step .forkFail true 0 ["a"] "r 1" =
      handle_recall .forkFail true 0 ["a"] "r 1" ∧
    main_step .forkFail true 0 ["a"] " r 1" =
      execute_command .forkFail true 0 ["a"] " r 1" := by
  have h := recall_routing_first_char .forkFail true 0 ["a"] "r 1"
    (by decide)
  exact ⟨h.2.1 (by decide), h.2.2.2.2.1⟩
